import Mathlib

/-!
Shallow embedding of the sheet-to-issue reconciliation scripts
(`scripts/issue_status_updater.py` and `scripts/sheet_monitor.py`).

Python strings are modelled as lists of characters (`Str`); the helper
functions below reproduce the exact Python string operations the scripts
use (`str.strip`, `str.split`, `str.replace`, `str.lower`,
`str.startswith`).  Network calls are modelled by outcome oracles
(`Nat → Bool`, indexed by issue number) and by an explicit list of the
remote-write operations a run emits.
-/

namespace IssueSync

/-- Python strings, modelled as lists of characters. -/
abbrev Str := List Char

/-- The characters removed by Python `str.strip()` with no argument
(ASCII whitespace: space, tab, newline, carriage return, vertical tab,
form feed). -/
def pyIsSpace (c : Char) : Bool :=
  c = ' ' || c = '\t' || c = '\n' || c = '\r' || c = Char.ofNat 11 || c = Char.ofNat 12

/-- Python `s.strip()`: remove whitespace from both ends. -/
def pyStrip (s : Str) : Str :=
  ((s.dropWhile pyIsSpace).reverse.dropWhile pyIsSpace).reverse

/-- Python `s.strip('"')`: remove double quotes from both ends. -/
def stripQuotes (s : Str) : Str :=
  ((s.dropWhile (fun c => c = '"')).reverse.dropWhile (fun c => c = '"')).reverse

/-- Python `s.lower()` (the script only compares ASCII status keys). -/
def pyLower (s : Str) : Str := s.map Char.toLower

/-- Python `s.split(sep)` for a one-character separator: splitting on
every occurrence, always yielding at least one (possibly empty) part. -/
def splitOnChar (sep : Char) : Str → List Str
  | [] => [[]]
  | c :: rest =>
    if c = sep then [] :: splitOnChar sep rest
    else
      match splitOnChar sep rest with
      | [] => [[c]]
      | hd :: tl => (c :: hd) :: tl

/-- Worker for `replaceAll`; the fuel argument is an upper bound on the
length of the string still to scan, so the final catch-all branch is
never reached from `replaceAll`. -/
def replaceAllAux (pat rep : Str) : Nat → Str → Str
  | _, [] => []
  | 0, s => s
  | fuel + 1, c :: rest =>
    if pat.isPrefixOf (c :: rest) then
      rep ++ replaceAllAux pat rep fuel ((c :: rest).drop pat.length)
    else
      c :: replaceAllAux pat rep fuel rest

/-- Python `s.replace(pat, rep)` for a non-empty pattern: replace every
non-overlapping occurrence, scanning left to right. -/
def replaceAll (pat rep s : Str) : Str :=
  replaceAllAux pat rep s.length s

/-- One parsed sheet row (`row_data` in `_get_sheet_data`). -/
structure Row where
  paper_id : Str
  status : Str
  reviewer : Str
  notes : Str
deriving DecidableEq

/-- The projection of a GitHub issue kept by `_get_existing_issues`. -/
structure Issue where
  number : Nat
  title : Str
  state : Str
  labels : List Str
  body : Str
deriving DecidableEq

/-- The `columns` list of `IssueStatusUpdater._get_sheet_data`: split
the line on commas, strip whitespace and quotes from every column. -/
def lineColumns (line : Str) : List Str :=
  (splitOnChar ',' line).map (fun col => stripQuotes (pyStrip col))

/-- The `row_data` dictionary built from a line's columns: the first
four columns become `paper_id`, `status`, `reviewer`, `notes` in
order. -/
def rowOfLine (line : Str) : Row :=
  { paper_id := (lineColumns line).getD 0 [],
    status := (lineColumns line).getD 1 [],
    reviewer := (lineColumns line).getD 2 [],
    notes := (lineColumns line).getD 3 [] }

/-- One data line of `IssueStatusUpdater._get_sheet_data`: skip blank
lines, and keep the line's row only if it has at least 4 columns. -/
def parseLine (line : Str) : Option Row :=
  if pyStrip line = [] then none
  else if 4 ≤ (lineColumns line).length then some (rowOfLine line)
  else none

/-- `IssueStatusUpdater._get_sheet_data` applied to the response body:
strip the text, split into lines, drop the header, parse each line. -/
def get_sheet_data (text : Str) : List Row :=
  ((splitOnChar '\n' (pyStrip text)).drop 1).filterMap parseLine

/-- `columns[0]` in `SheetMonitor._get_sheet_data` (splitting always
yields at least one column, so `if columns` is always true). -/
def firstColumn (line : Str) : Str :=
  (splitOnChar ',' line).headD []

/-- One data line of `SheetMonitor._get_sheet_data` (identifier-only
mode): skip blank lines, split on commas, and keep the stripped,
unquoted first column when it is non-empty. -/
def monitorParseLine (line : Str) : Option Str :=
  if pyStrip line = [] then none
  else
    match splitOnChar ',' line with
    | [] => none
    | c0 :: _ =>
      if pyStrip c0 = [] then none
      else some (stripQuotes (pyStrip c0))

/-- `SheetMonitor._get_sheet_data` applied to the response body. -/
def monitor_get_sheet_data (text : Str) : List Str :=
  ((splitOnChar '\n' (pyStrip text)).drop 1).filterMap monitorParseLine

/-- The fixed status→label table of `_update_issue_labels`. -/
def status_labels : List (Str × Str) :=
  [(("pending".data), ("status-pending".data)),
   (("in_progress".data), ("status-in-progress".data)),
   (("reviewing".data), ("status-reviewing".data)),
   (("completed".data), ("status-completed".data)),
   (("rejected".data), ("status-rejected".data)),
   (("approved".data), ("status-approved".data))]

/-- Association-list lookup, modelling Python dict lookup by key. -/
def lookupA {α : Type} (k : Str) : List (Str × α) → Option α
  | [] => none
  | (k1, v) :: rest => if k1 = k then some v else lookupA k rest

/-- Association-list assignment, modelling Python `d[k] = v`: overwrite
in place when the key exists, append otherwise. -/
def insertA {α : Type} (k : Str) (v : α) : List (Str × α) → List (Str × α)
  | [] => [(k, v)]
  | (k1, v1) :: rest =>
    if k1 = k then (k1, v) :: rest else (k1, v1) :: insertA k v rest

/-- `list(status_labels.values())` in `_update_issue_labels`. -/
def status_label_names : List Str := status_labels.map Prod.snd

/-- The essential labels re-added at the end of `_update_issue_labels`. -/
def essential_labels : List Str := [("paper-review".data), ("automated".data)]

/-- First stage of `_update_issue_labels`: the list comprehension that
keeps only the labels not in the status table's value set. -/
def removeStatusLabels (ls : List Str) : List Str :=
  ls.filter (fun l => decide (l ∉ status_label_names))

/-- Second stage of `_update_issue_labels`: when the lowercased status
is a key of the table, append its label unless already present. -/
def addStatusLabel (new_status : Str) (u : List Str) : List Str :=
  match lookupA (pyLower new_status) status_labels with
  | some new_label => if new_label ∈ u then u else u ++ [new_label]
  | none => u

/-- Final stage of `_update_issue_labels`: the loop appending every
listed label that is not already present. -/
def addMissing (es : List Str) (u : List Str) : List Str :=
  es.foldl (fun acc l => if l ∈ acc then acc else acc ++ [l]) u

/-- `IssueStatusUpdater._update_issue_labels`: drop every label in the
status table's value set, append the label matching the lowercased
status if the table knows it, then append any missing essential label.
The `try` around this body can never fail, so the `except` branch is
dead code. -/
def update_issue_labels (current_labels : List Str) (new_status : Str) : List Str :=
  addMissing essential_labels (addStatusLabel new_status (removeStatusLabels current_labels))

/-- The fixed title marker `"Paper Review: "` used both to test a title
with `str.startswith` and as the pattern of the `str.replace` call. -/
def titleMarker : Str := ("Paper Review: ".data)

/-- `title.replace('Paper Review: ', '').strip()`: the paper id the
script derives from a qualifying title.  Note `str.replace` removes
every occurrence of the marker, not only the leading one. -/
def extract_paper_id (title : Str) : Str :=
  pyStrip (replaceAll titleMarker [] title)

/-- The loop body of `_get_existing_issues`: an issue is indexed iff its
title starts with the marker, under the id derived by
`extract_paper_id`; a later issue with the same derived id overwrites an
earlier one. -/
def indexIssue (m : List (Str × Issue)) (issue : Issue) : List (Str × Issue) :=
  if titleMarker.isPrefixOf issue.title then
    insertA (extract_paper_id issue.title) issue m
  else m

/-- The `issue_mapping` dictionary built by `_get_existing_issues` from
a list of issues. -/
def buildIndex (issues : List Issue) : List (Str × Issue) :=
  issues.foldl indexIssue []

/-- `IssueStatusUpdater._get_existing_issues`: the script sends a single
GET with `per_page=100` and no page loop, so of a paginated listing it
only ever receives and indexes the first page. -/
def get_existing_issues (pages : List (List Issue)) : List (Str × Issue) :=
  buildIndex (pages.headD [])

/-- `f"{status}|{reviewer}|{notes}"`, the change fingerprint
(`current_data` in `run`). -/
def fingerprint (r : Row) : Str :=
  r.status ++ ('|' :: r.reviewer) ++ ('|' :: r.notes)

/-- The update-needed test of `run`: `current_data != last_update`,
where a `paper_id` absent from `last_updated` reads as `''`. -/
def shouldApply (store : List (Str × Str)) (r : Row) : Bool :=
  decide (fingerprint r ≠ (lookupA r.paper_id store).getD [])

/-- A remote-write call issued for a record during the update loop. -/
inductive RemoteOp where
  | patchLabels (issue_number : Nat) (labels : List Str)
  | postComment (issue_number : Nat) (status reviewer notes : Str)
deriving DecidableEq

/-- `IssueStatusUpdater._update_issue`: PATCH the labels; when the PATCH
succeeds, POST the status comment and return `True` without inspecting
the comment's outcome (the return value of `_add_status_comment` is
discarded); when the PATCH fails, return `False` with no comment
attempted.  `patchOk` and `commentOk` are the outcome oracles of the two
HTTP calls, indexed by issue number; the second component lists the
remote-write calls issued. -/
def update_issue (patchOk commentOk : Nat → Bool) (issue_number : Nat)
    (labels : List Str) (status reviewer notes : Str) : Bool × List RemoteOp :=
  if patchOk issue_number then
    (true,
     [RemoteOp.patchLabels issue_number labels,
      RemoteOp.postComment issue_number status reviewer notes])
  else
    (false, [RemoteOp.patchLabels issue_number labels])

/-- One iteration of the update loop in `IssueStatusUpdater.run` for a
single row: resolve the issue, skip when the fingerprint is unchanged,
otherwise compute the new labels, call `_update_issue`, and advance
`last_updated[paper_id]` exactly when `_update_issue` returned `True`.
Returns the updated store and the remote-write calls issued for this
row. -/
def processRow (issue_mapping : List (Str × Issue)) (patchOk commentOk : Nat → Bool)
    (store : List (Str × Str)) (r : Row) : List (Str × Str) × List RemoteOp :=
  match lookupA r.paper_id issue_mapping with
  | none => (store, [])
  | some issue =>
    if shouldApply store r then
      let new_labels := update_issue_labels issue.labels r.status
      let result := update_issue patchOk commentOk issue.number new_labels
        r.status r.reviewer r.notes
      if result.1 then (insertA r.paper_id (fingerprint r) store, result.2)
      else (store, result.2)
    else (store, [])

/-- One entry of a run's trace: the row processed, the state of
`last_updated` when its iteration began, and the remote-write calls
issued for it. -/
structure TraceEntry where
  row : Row
  storeBefore : List (Str × Str)
  ops : List RemoteOp
deriving DecidableEq

/-- The update loop of `IssueStatusUpdater.run`, recording for every row
the store it was judged against and the remote-write calls it caused. -/
def runTrace (issue_mapping : List (Str × Issue)) (patchOk commentOk : Nat → Bool) :
    List (Str × Str) → List Row → List TraceEntry
  | _, [] => []
  | store, r :: rest =>
    ⟨r, store, (processRow issue_mapping patchOk commentOk store r).2⟩ ::
      runTrace issue_mapping patchOk commentOk
        (processRow issue_mapping patchOk commentOk store r).1 rest

/-- The final `last_updated` store after the update loop of `run`. -/
def runStore (issue_mapping : List (Str × Issue)) (patchOk commentOk : Nat → Bool) :
    List (Str × Str) → List Row → List (Str × Str)
  | store, [] => store
  | store, r :: rest =>
    runStore issue_mapping patchOk commentOk
      (processRow issue_mapping patchOk commentOk store r).1 rest

/-- The three environment values read in `__init__`: `None` models an
unset variable; `some []` models a variable set to the empty string. -/
structure Config where
  sheet_id : Option Str
  github_token : Option Str
  github_repo : Option Str
deriving DecidableEq

/-- Python truthiness of `os.environ.get(...)` under `if not value:`:
missing (`None`) or empty string both count as absent. -/
def isMissing : Option Str → Bool
  | none => true
  | some s => decide (s = [])

/-- The `missing_vars` list built by `_validate_environment`, in the
fixed order the code checks the three variables. -/
def missing_vars (c : Config) : List Str :=
  (if isMissing c.sheet_id then [("GOOGLE_SHEET_ID".data)] else []) ++
  (if isMissing c.github_token then [("GITHUB_TOKEN".data)] else []) ++
  (if isMissing c.github_repo then [("GITHUB_REPOSITORY".data)] else [])

/-- `IssueStatusUpdater._validate_environment`: `True` iff no required
value is absent. -/
def validate_environment (c : Config) : Bool :=
  decide (missing_vars c = [])

/-- The observable outcome of `run` as far as configuration handling
goes: the remote calls issued, the missing-variable diagnostic printed,
and the process exit status. -/
structure ConfigRunView where
  networkOps : List RemoteOp
  diagnostics : List Str
  exitCode : Nat
deriving DecidableEq

/-- The start of `IssueStatusUpdater.run` plus the `__main__` epilogue:
when validation fails, `run` prints the missing variables and returns
before any HTTP call; `__main__` never calls `sys.exit` and `run`
raises nothing here, so the interpreter exits with status 0 whether or
not validation failed.  `rest` abstracts the remote calls the rest of a
validated run would issue. -/
def runConfigPhase (c : Config) (rest : List RemoteOp) : ConfigRunView :=
  if validate_environment c then
    { networkOps := rest, diagnostics := [], exitCode := 0 }
  else
    { networkOps := [], diagnostics := missing_vars c, exitCode := 0 }

/-! Concrete data used by witness and counterexample theorems. -/

/-- A remote issue matching `exRow`, with a pending status label. -/
def exIssue : Issue :=
  ⟨5, ("Paper Review: P1".data), ("open".data),
   [("paper-review".data), ("automated".data), ("status-pending".data)], []⟩

/-- An identity index holding just `exIssue` under `P1`. -/
def exIm : List (Str × Issue) := [(("P1".data), exIssue)]

/-- A sheet row for `P1`. -/
def exRow : Row := ⟨("P1".data), ("in_progress".data), ("Alice".data), []⟩

/-- A fingerprint store that already records `exRow` as applied. -/
def exStore : List (Str × Str) := [(("P1".data), fingerprint exRow)]

/-- First issue of a two-issue listing. -/
def exI1 : Issue := ⟨1, ("Paper Review: P1".data), ("open".data), [], []⟩

/-- Second issue of a two-issue listing, for a different paper. -/
def exI2 : Issue := ⟨2, ("Paper Review: P2".data), ("open".data), [], []⟩

/-- A second, distinct issue whose title derives the same id as `exI1`. -/
def exI1b : Issue := ⟨2, ("Paper Review: P1".data), ("open".data), [], []⟩

/-- An issue whose title contains the title marker twice. -/
def exDup : Issue :=
  ⟨9, ("Paper Review: A Paper Review: B".data), ("open".data), [], []⟩

/-- A small CSV body: header, one full row, a blank line, another row. -/
def exCSV : Str := ("hdr\nA1,done,Bob,ok\n\nA2,x,y,z".data)

/-- A CSV body whose single data line is non-blank and has three
fields, the first of which is empty. -/
def exCSV2 : Str := ("hdr\n,x,y".data)

/-- A current label set holding one status label and two others. -/
def exLabels : List Str :=
  [("status-pending".data), ("paper-review".data), ("automated".data)]

/-- A row whose status itself contains the fingerprint delimiter. -/
def exRowP : Row := ⟨("P1".data), ("a|b".data), ("c".data), ("d".data)⟩

/-- A row with different fields but the same fingerprint as `exRowP`. -/
def exRowQ : Row := ⟨("P1".data), ("a".data), ("b|c".data), ("d".data)⟩

/-! Helper lemmas. -/

/-- `splitOnChar` always yields at least one part. -/
theorem splitOnChar_ne_nil (sep : Char) (s : Str) : splitOnChar sep s ≠ [] := by
  cases s with
  | nil => simp [splitOnChar]
  | cons c rest =>
    unfold splitOnChar
    by_cases h : c = sep
    · simp [h]
    · simp only [if_neg h]
      cases splitOnChar sep rest <;> simp

/-- Looking a key up right after assigning it yields the new value. -/
theorem lookupA_insertA_self {α : Type} (k : Str) (v : α) (m : List (Str × α)) :
    lookupA k (insertA k v m) = some v := by
  induction m with
  | nil => simp [insertA, lookupA]
  | cons p rest ih =>
    obtain ⟨k1, v1⟩ := p
    unfold insertA
    by_cases h : k1 = k
    · simp [h, lookupA]
    · simp [h, lookupA, ih]

/-- Folding the issue list from the left, one appended issue at a time. -/
theorem buildIndex_concat (issues : List Issue) (iss : Issue) :
    buildIndex (issues ++ [iss]) = indexIssue (buildIndex issues) iss := by
  simp [buildIndex, List.foldl_append]

/-- A qualifying issue appended at the end of the listing ends up in the
index under its derived id, overwriting any earlier issue there. -/
theorem lookupA_buildIndex_concat (issues : List Issue) (iss : Issue)
    (h : titleMarker.isPrefixOf iss.title = true) :
    lookupA (extract_paper_id iss.title) (buildIndex (issues ++ [iss])) = some iss := by
  rw [buildIndex_concat]
  unfold indexIssue
  rw [if_pos h]
  exact lookupA_insertA_self _ _ _

/-- Membership after `addMissing`: the element was already there or is
one of the labels to add. -/
theorem mem_addMissing (es : List Str) (u : List Str) (l : Str) :
    l ∈ addMissing es u ↔ l ∈ u ∨ l ∈ es := by
  induction es generalizing u with
  | nil => simp [addMissing]
  | cons e es ih =>
    unfold addMissing at ih ⊢
    simp only [List.foldl_cons]
    by_cases he : e ∈ u
    · rw [if_pos he, ih]
      constructor
      · rintro (h | h)
        · exact Or.inl h
        · exact Or.inr (List.mem_cons_of_mem _ h)
      · rintro (h | h)
        · exact Or.inl h
        · rcases List.mem_cons.mp h with rfl | h
          · exact Or.inl he
          · exact Or.inr h
    · rw [if_neg he, ih]
      simp only [List.mem_append, List.mem_singleton, List.mem_cons]
      tauto

/-- Membership after `addStatusLabel`: the element was already there or
is the label the status table resolves the status to. -/
theorem mem_addStatusLabel (s : Str) (u : List Str) (l : Str) :
    l ∈ addStatusLabel s u ↔
      l ∈ u ∨ lookupA (pyLower s) status_labels = some l := by
  unfold addStatusLabel
  cases h : lookupA (pyLower s) status_labels with
  | none => simp
  | some nl =>
    by_cases hnl : nl ∈ u
    · simp only [if_pos hnl, Option.some.injEq]
      constructor
      · exact Or.inl
      · rintro (h | rfl)
        · exact h
        · exact hnl
    · simp only [if_neg hnl, List.mem_append, List.mem_singleton, Option.some.injEq]
      constructor
      · rintro (h | rfl)
        · exact Or.inl h
        · exact Or.inr rfl
      · rintro (h | rfl)
        · exact Or.inl h
        · exact Or.inr rfl

/-- Full membership characterisation of `_update_issue_labels`: the
output holds exactly the input labels outside the status-label value
set, the label resolved from the status (when the table knows it), and
the essential labels. -/
theorem mem_update_issue_labels (ls : List Str) (s : Str) (l : Str) :
    l ∈ update_issue_labels ls s ↔
      (l ∈ ls ∧ l ∉ status_label_names) ∨
      lookupA (pyLower s) status_labels = some l ∨
      l ∈ essential_labels := by
  unfold update_issue_labels
  rw [mem_addMissing, mem_addStatusLabel]
  unfold removeStatusLabels
  simp only [List.mem_filter, decide_eq_true_eq]
  tauto

/-- Skipped rows leave the store untouched and issue no remote calls. -/
theorem processRow_skip (im : List (Str × Issue)) (patchOk commentOk : Nat → Bool)
    (store : List (Str × Str)) (r : Row) (h : shouldApply store r = false) :
    processRow im patchOk commentOk store r = (store, []) := by
  unfold processRow
  cases lookupA r.paper_id im with
  | none => rfl
  | some issue => simp [h]

/-- Counting a filtered list together with its complement. -/
theorem length_filter_add_not (L : List Str) (p : Str → Bool) :
    (L.filter p).length + (L.filter (fun a => !(p a))).length = L.length := by
  induction L with
  | nil => simp
  | cons a L ih =>
    by_cases h : p a = true
    · simp [List.filter_cons, h]
      omega
    · have h2 : p a = false := by
        cases hp : p a
        · rfl
        · exact absurd hp h
      simp [List.filter_cons, h2]
      omega

/-- A `filterMap` whose function acts as a guarded map is the map over
the filtered list. -/
theorem filterMap_eq_filter_map {α : Type} (L : List Str) (f : Str → Option α)
    (p : Str → Bool) (g : Str → α)
    (h : ∀ line ∈ L, f line = if p line then some (g line) else none) :
    L.filterMap f = (L.filter p).map g := by
  induction L with
  | nil => simp
  | cons a L ih =>
    have ha := h a (List.mem_cons_self a L)
    have hL : ∀ line ∈ L, f line = if p line then some (g line) else none :=
      fun line hl => h line (List.mem_cons_of_mem a hl)
    by_cases hp : p a = true
    · rw [List.filterMap_cons, ha, if_pos hp, List.filter_cons_of_pos hp,
        List.map_cons, ih hL]
    · have hp2 : p a = false := by
        cases hq : p a
        · rfl
        · exact absurd hq hp
      rw [List.filterMap_cons, ha, hp2]
      simp only [if_false, Bool.false_eq_true]
      rw [List.filter_cons_of_neg (by simp [hp2]), ih hL]

/-- A configuration missing its sheet identifier. -/
def exCfgBad : Config := ⟨none, some ("t".data), some ("r".data)⟩

/-- A complete configuration. -/
def exCfgOk : Config := ⟨some ("s".data), some ("t".data), some ("r".data)⟩

/-- `parseLine` as a guarded map: a line is kept exactly when it is
non-blank and has at least four columns. -/
theorem parseLine_eq_general (line : Str) :
    parseLine line
      = if !(decide (pyStrip line = [])) && decide (4 ≤ (lineColumns line).length)
        then some (rowOfLine line) else none := by
  unfold parseLine
  by_cases hb : pyStrip line = []
  · simp [hb]
  · by_cases h4 : 4 ≤ (lineColumns line).length
    · simp [hb, h4]
    · simp [hb, h4]

/-- `monitorParseLine` as a guarded map: a line is kept exactly when it
is non-blank and its first column is non-blank after trimming. -/
theorem monitorParseLine_eq_general (line : Str) :
    monitorParseLine line
      = if !(decide (pyStrip line = [])) && !(decide (pyStrip (firstColumn line) = []))
        then some (stripQuotes (pyStrip (firstColumn line))) else none := by
  unfold monitorParseLine
  by_cases hb : pyStrip line = []
  · simp [hb]
  · cases hsp : splitOnChar ',' line with
    | nil => exact absurd hsp (splitOnChar_ne_nil ',' line)
    | cons c0 tl =>
      have hfc : firstColumn line = c0 := by simp [firstColumn, hsp]
      rw [hfc]
      by_cases hc : pyStrip c0 = []
      · simp [hb, hc]
      · simp [hb, hc]

/-! The claims. -/

/-- Claim C1, refuted at a concrete input: with the patch oracle
succeeding and the comment oracle failing on every issue, processing a
row that needs an update both issues the patch and the comment call and
still advances the fingerprint store — `_update_issue` discards the
comment outcome, so the record is not retried. -/
theorem claim1_counterexample :
    (processRow exIm (fun _ => true) (fun _ => false) [] exRow).1
        = [(("P1".data), fingerprint exRow)] ∧
    (processRow exIm (fun _ => true) (fun _ => false) [] exRow).2
        = [RemoteOp.patchLabels 5 (update_issue_labels exIssue.labels exRow.status),
           RemoteOp.postComment 5 exRow.status exRow.reviewer exRow.notes] := by
  decide

/-- Claim C1 as amended: for a record that resolves to an issue and
needs an update, the fingerprint store is advanced exactly when the
label patch succeeds, and the whole processing outcome is independent
of the comment-post outcome. -/
theorem claim1_theorem (im : List (Str × Issue)) (patchOk commentOk commentOk2 : Nat → Bool)
    (store : List (Str × Str)) (r : Row) (issue : Issue)
    (hfound : lookupA r.paper_id im = some issue)
    (happ : shouldApply store r = true) :
    (processRow im patchOk commentOk store r).1
        = (if patchOk issue.number = true
           then insertA r.paper_id (fingerprint r) store else store) ∧
    processRow im patchOk commentOk store r
        = processRow im patchOk commentOk2 store r := by
  unfold processRow
  rw [hfound]
  simp only [happ, if_true]
  unfold update_issue
  cases hp : patchOk issue.number <;> simp [hp]

/-- Witness for the amended claim C1 at a concrete input. -/
theorem claim1_witness :
    processRow exIm (fun _ => true) (fun _ => false) [] exRow
        = processRow exIm (fun _ => true) (fun _ => true) [] exRow :=
  (claim1_theorem exIm (fun _ => true) (fun _ => false) (fun _ => true) [] exRow exIssue
    (by decide) (by decide)).2

/-- Claim C2, refuted at a concrete input: the status `weird` is not in
the status table, yet the status label `status-pending` present in the
current labels is removed by the mapper. -/
theorem claim2_counterexample :
    lookupA (pyLower ("weird".data)) status_labels = none ∧
    ("status-pending".data) ∈ exLabels ∧
    ("status-pending".data) ∉ update_issue_labels exLabels ("weird".data) := by
  decide

/-- Claim C2 as amended: for a status unknown to the table, the mapper
removes every label in the status-label value set (rather than leaving
the status dimension unchanged), keeps all other current labels, and
adds the essential labels; no status label is added. -/
theorem claim2_theorem (s : Str) (ls : List Str) (l : Str)
    (h : lookupA (pyLower s) status_labels = none) :
    l ∈ update_issue_labels ls s ↔
      (l ∈ ls ∧ l ∉ status_label_names) ∨ l ∈ essential_labels := by
  rw [mem_update_issue_labels, h]
  simp

/-- Witness for the amended claim C2 at a concrete input. -/
theorem claim2_witness :
    ("paper-review".data) ∈ update_issue_labels exLabels ("weird".data) ↔
      (("paper-review".data) ∈ exLabels ∧
        ("paper-review".data) ∉ status_label_names) ∨
      ("paper-review".data) ∈ essential_labels :=
  claim2_theorem ("weird".data) exLabels ("paper-review".data) (by decide)

/-- Claim C3: the code issues a single listing request with no page
loop, so a listing split into two pages is indexed differently from the
whole listing — the second page's issue is missing from the index. -/
theorem claim3_theorem :
    get_existing_issues [[exI1], [exI2]] ≠ buildIndex [exI1, exI2] ∧
    lookupA ("P2".data) (get_existing_issues [[exI1], [exI2]]) = none ∧
    lookupA ("P2".data) (buildIndex [exI1, exI2]) = some exI2 := by
  decide

/-- Claim C4, refuted at a concrete input: a run with a missing
required value finishes with process exit status 0, exactly like a run
with a complete configuration — the exit status does not distinguish a
configuration error from success. -/
theorem claim4_counterexample :
    validate_environment exCfgBad = false ∧
    (runConfigPhase exCfgBad []).exitCode = 0 ∧
    validate_environment exCfgOk = true ∧
    (runConfigPhase exCfgOk []).exitCode = 0 := by
  decide

/-- Claim C4 as amended: when a required value is absent the run makes
no network call and prints a diagnostic listing exactly the missing
values, but the process still exits with status 0, indistinguishable
from success. -/
theorem claim4_theorem (c : Config) (rest : List RemoteOp)
    (h : validate_environment c = false) :
    (runConfigPhase c rest).networkOps = [] ∧
    (runConfigPhase c rest).diagnostics = missing_vars c ∧
    (∀ v : Str, v ∈ missing_vars c ↔
      (v = ("GOOGLE_SHEET_ID".data) ∧ isMissing c.sheet_id = true) ∨
      (v = ("GITHUB_TOKEN".data) ∧ isMissing c.github_token = true) ∨
      (v = ("GITHUB_REPOSITORY".data) ∧ isMissing c.github_repo = true)) ∧
    (runConfigPhase c rest).exitCode = 0 := by
  refine ⟨?_, ?_, ?_, ?_⟩
  · simp [runConfigPhase, h]
  · simp [runConfigPhase, h]
  · intro v
    unfold missing_vars
    cases h1 : isMissing c.sheet_id <;>
      cases h2 : isMissing c.github_token <;>
        cases h3 : isMissing c.github_repo <;>
          simp [h1, h2, h3]
  · simp [runConfigPhase, h]

/-- Witness for the amended claim C4 at a concrete input. -/
theorem claim4_witness :
    ("GOOGLE_SHEET_ID".data) ∈ missing_vars exCfgBad ↔
      (("GOOGLE_SHEET_ID".data) = ("GOOGLE_SHEET_ID".data) ∧
        isMissing exCfgBad.sheet_id = true) ∨
      (("GOOGLE_SHEET_ID".data) = ("GITHUB_TOKEN".data) ∧
        isMissing exCfgBad.github_token = true) ∨
      (("GOOGLE_SHEET_ID".data) = ("GITHUB_REPOSITORY".data) ∧
        isMissing exCfgBad.github_repo = true) :=
  (claim4_theorem exCfgBad [] (by decide)).2.2.1 (("GOOGLE_SHEET_ID".data))

/-- Claim C5, refuted at a concrete input: two distinct issues whose
titles derive the same paper id are silently resolved — the index
quietly maps `P1` to the later issue and retains no trace of the
earlier one or of the duplication. -/
theorem claim5_counterexample :
    exI1 ≠ exI1b ∧
    extract_paper_id exI1.title = extract_paper_id exI1b.title ∧
    buildIndex [exI1, exI1b] = [(("P1".data), exI1b)] := by
  decide

/-- Claim C5 as amended: when the listing holds several issues deriving
the same paper id, the index silently maps that id to the last
qualifying issue in listing order; nothing is flagged. -/
theorem claim5_theorem (issues : List Issue) (iss : Issue)
    (h : titleMarker.isPrefixOf iss.title = true) :
    lookupA (extract_paper_id iss.title) (buildIndex (issues ++ [iss])) = some iss :=
  lookupA_buildIndex_concat issues iss h

/-- Witness for the amended claim C5 at a concrete input. -/
theorem claim5_witness :
    lookupA (extract_paper_id exI1b.title) (buildIndex ([exI1] ++ [exI1b]))
      = some exI1b :=
  claim5_theorem [exI1] exI1b (by decide)

/-- Claim C6: during a run, a record that resolves to an existing issue
and whose fingerprint equals the stored one causes zero remote-write
calls. -/
theorem claim6_theorem (im : List (Str × Issue)) (patchOk commentOk : Nat → Bool)
    (store : List (Str × Str)) (rows : List Row) :
    ∀ e ∈ runTrace im patchOk commentOk store rows,
      (∃ issue, lookupA e.row.paper_id im = some issue) →
      shouldApply e.storeBefore e.row = false → e.ops = [] := by
  induction rows generalizing store with
  | nil =>
    intro e he
    simp [runTrace] at he
  | cons r rest ih =>
    intro e he hfound hskip
    rw [runTrace] at he
    rcases List.mem_cons.mp he with rfl | he2
    · show (processRow im patchOk commentOk store r).2 = []
      have : processRow im patchOk commentOk store r = (store, []) :=
        processRow_skip im patchOk commentOk store r hskip
      rw [this]
    · exact ih _ e he2 hfound hskip

/-- Witness for claim C6 at a concrete input. -/
theorem claim6_witness :
    TraceEntry.ops ⟨exRow, exStore, []⟩ = ([] : List RemoteOp) :=
  claim6_theorem exIm (fun _ => true) (fun _ => true) exStore [exRow]
    ⟨exRow, exStore, []⟩ (by decide) ⟨exIssue, by decide⟩ (by decide)

/-- Claim C7: the label mapper is idempotent on label sets — applying
it twice with the same status yields the same label set as once. -/
theorem claim7_theorem (s : Str) (ls : List Str) :
    (update_issue_labels (update_issue_labels ls s) s).toFinset
      = (update_issue_labels ls s).toFinset := by
  ext l
  simp only [List.mem_toFinset]
  rw [mem_update_issue_labels, mem_update_issue_labels]
  tauto

/-- Claim C8, refuted at a concrete input: for a title containing the
marker twice, the issue qualifies, but it is indexed under the title
with every occurrence of the marker removed (`A B`), not under the
remainder after the leading marker (`A Paper Review: B`). -/
theorem claim8_counterexample :
    titleMarker.isPrefixOf exDup.title = true ∧
    exDup.title = titleMarker ++ ("A Paper Review: B".data) ∧
    lookupA ("A Paper Review: B".data) (buildIndex [exDup]) = none ∧
    lookupA ("A B".data) (buildIndex [exDup]) = some exDup := by
  decide

/-- Claim C8 as amended: an issue enters the index iff its title starts
with the marker (non-matching titles are skipped without error), and it
is indexed under the title with every occurrence of the marker removed,
trimmed. -/
theorem claim8_theorem (issues : List Issue) (iss : Issue) :
    (titleMarker.isPrefixOf iss.title = false →
      buildIndex (issues ++ [iss]) = buildIndex issues) ∧
    (titleMarker.isPrefixOf iss.title = true →
      lookupA (extract_paper_id iss.title) (buildIndex (issues ++ [iss]))
        = some iss) := by
  constructor
  · intro h
    rw [buildIndex_concat]
    unfold indexIssue
    rw [if_neg (by simp [h])]
  · exact lookupA_buildIndex_concat issues iss

/-- Witness for the amended claim C8 at a concrete input. -/
theorem claim8_witness :
    lookupA (extract_paper_id exDup.title) (buildIndex ([] ++ [exDup]))
      = some exDup :=
  (claim8_theorem [] exDup).2 (by decide)

/-- Claim C9, refuted at a concrete input: the data line `,x,y` of
`exCSV2` is non-blank and splits into three fields — at least the one
field the identifier-only minimum requires — so the claimed formula
counts 1 record, yet the identifier-only parser discards the line
(its first field is empty after trimming) and returns 0 records. -/
theorem claim9_counterexample :
    pyStrip ((",x,y").data) ≠ [] ∧
    1 ≤ (splitOnChar ',' ((",x,y").data)).length ∧
    (splitOnChar '\n' (pyStrip exCSV2)).drop 1 = [((",x,y").data)] ∧
    (splitOnChar '\n' (pyStrip exCSV2)).length - 1
      - (((splitOnChar '\n' (pyStrip exCSV2)).drop 1).filter
          (fun l => decide (pyStrip l = []))).length = 1 ∧
    monitor_get_sheet_data exCSV2 = [] := by
  decide

/-- Claim C9 as amended: each parser keeps exactly the non-blank data
lines passing its mode's discard rule, in order, with columns mapped in
order (see `rowOfLine`): full status-sync mode discards a line iff it
is blank or has fewer than 4 fields; identifier-only mode discards a
line iff it is blank or its first field is empty after trimming
(splitting always yields at least one field, so a 1-field minimum never
discards anything — the real rule is stricter).  When no non-blank data
line is discarded, the output has exactly
(line count − 1 − blank-line count) records. -/
theorem claim9_theorem (text : Str) :
    get_sheet_data text
        = (((splitOnChar '\n' (pyStrip text)).drop 1).filter
            (fun l => !(decide (pyStrip l = []))
              && decide (4 ≤ (lineColumns l).length))).map rowOfLine ∧
    monitor_get_sheet_data text
        = (((splitOnChar '\n' (pyStrip text)).drop 1).filter
            (fun l => !(decide (pyStrip l = []))
              && !(decide (pyStrip (firstColumn l) = [])))).map
            (fun l => stripQuotes (pyStrip (firstColumn l))) ∧
    ((∀ line ∈ (splitOnChar '\n' (pyStrip text)).drop 1,
        pyStrip line ≠ [] → 4 ≤ (lineColumns line).length) →
      (get_sheet_data text).length
        = (splitOnChar '\n' (pyStrip text)).length - 1
          - (((splitOnChar '\n' (pyStrip text)).drop 1).filter
              (fun l => decide (pyStrip l = []))).length) ∧
    ((∀ line ∈ (splitOnChar '\n' (pyStrip text)).drop 1,
        pyStrip line ≠ [] → pyStrip (firstColumn line) ≠ []) →
      (monitor_get_sheet_data text).length
        = (splitOnChar '\n' (pyStrip text)).length - 1
          - (((splitOnChar '\n' (pyStrip text)).drop 1).filter
              (fun l => decide (pyStrip l = []))).length) := by
  simp only [get_sheet_data, monitor_get_sheet_data]
  have hLlen : ((splitOnChar '\n' (pyStrip text)).drop 1).length
      = (splitOnChar '\n' (pyStrip text)).length - 1 := by
    simp
  generalize hG : (splitOnChar '\n' (pyStrip text)).drop 1 = L at hLlen ⊢
  have e1 := filterMap_eq_filter_map L parseLine
    (fun l => !(decide (pyStrip l = [])) && decide (4 ≤ (lineColumns l).length))
    rowOfLine (fun line _ => parseLine_eq_general line)
  have e2 := filterMap_eq_filter_map L monitorParseLine
    (fun l => !(decide (pyStrip l = [])) && !(decide (pyStrip (firstColumn l) = [])))
    (fun l => stripQuotes (pyStrip (firstColumn l)))
    (fun line _ => monitorParseLine_eq_general line)
  have hadd := length_filter_add_not L (fun l => !(decide (pyStrip l = [])))
  simp only [Bool.not_not] at hadd
  refine ⟨e1, e2, ?_, ?_⟩
  · intro h4
    have hcong : L.filter
        (fun l => !(decide (pyStrip l = [])) && decide (4 ≤ (lineColumns l).length))
          = L.filter (fun l => !(decide (pyStrip l = []))) := by
      apply List.filter_congr
      intro line hl
      by_cases hb : pyStrip line = []
      · simp [hb]
      · simp [hb, h4 line hl hb]
    rw [e1, hcong, List.length_map]
    omega
  · intro h1
    have hcong : L.filter
        (fun l => !(decide (pyStrip l = [])) && !(decide (pyStrip (firstColumn l) = [])))
          = L.filter (fun l => !(decide (pyStrip l = []))) := by
      apply List.filter_congr
      intro line hl
      by_cases hb : pyStrip line = []
      · simp [hb]
      · simp [hb, h1 line hl hb]
    rw [e2, hcong, List.length_map]
    omega

/-- Witness for the amended claim C9 at a concrete CSV body whose
non-blank data lines all have four fields. -/
theorem claim9_witness :
    (get_sheet_data exCSV).length
      = (splitOnChar '\n' (pyStrip exCSV)).length - 1
        - (((splitOnChar '\n' (pyStrip exCSV)).drop 1).filter
            (fun l => decide (pyStrip l = []))).length :=
  (claim9_theorem exCSV).2.2.1 (by decide)

/-- Claim C10: the fingerprint concatenation is not injective — two
rows with different field values share a fingerprint because a field
contains the delimiter, and with the first row's fingerprint stored,
`shouldApply` reports no change for the second. -/
theorem claim10_theorem :
    ∃ r1 r2 : Row, r1 ≠ r2 ∧ r1.paper_id = r2.paper_id ∧
      fingerprint r1 = fingerprint r2 ∧
      shouldApply [(r1.paper_id, fingerprint r1)] r2 = false :=
  ⟨exRowP, exRowQ, by decide, by decide, by decide, by decide⟩

end IssueSync
